import Mathlib

/-!
Verification of the core of the `dvdcollection` media tracker: the
bulk-import reconciliation pipeline, the TMDB payload normalizer, the
duplicate/copy-number resolver and the location allocator, shallowly
embedded from `tracker/models.py`, `tracker/services.py` and
`tracker/views.py`.

Python strings are embedded as Lean `String`; Python `None`-able values as
`Option`; Django querysets over the record store as `List DVD`.
-/

namespace DVDTracker

/-! ### Python primitive semantics -/

/-- Numeric value of an ASCII digit character. -/
def digitVal (c : Char) : Nat := c.toNat - 48

/-- Value of a list of ASCII digit characters read in base 10
(the value `int()` produces on an all-digit string, and the value SQLite
`CAST(... AS INTEGER)` produces on the leading digit run). -/
def digitsVal (l : List Char) : Nat := l.foldl (fun a c => a * 10 + digitVal c) 0

/-- ASCII whitespace stripped by Python `int()` before parsing. -/
def isPySpace (c : Char) : Bool :=
  c = ' ' || c = '\t' || c = '\n' || c = '\r' || c = '\x0b' || c = '\x0c'

/-- Strip leading and trailing whitespace from a character list. -/
def stripWs (l : List Char) : List Char :=
  ((l.dropWhile isPySpace).reverse.dropWhile isPySpace).reverse

/-- Digit tail of a Python integer literal: digits, with single underscores
allowed between digits.  `acc` is the value of the digits already read. -/
def pyDigitsCore : Nat → List Char → Option Nat
  | acc, [] => some acc
  | acc, c :: rest =>
    if c.isDigit then pyDigitsCore (acc * 10 + digitVal c) rest
    else if c = '_' then
      match rest with
      | [] => none
      | d :: rest2 =>
        if d.isDigit then pyDigitsCore (acc * 10 + digitVal d) rest2 else none
    else none

/-- Unsigned decimal digit run of Python `int()`: at least one digit, then
digits with single underscores between them. -/
def pyIntDigits (l : List Char) : Option Nat :=
  match l with
  | [] => none
  | c :: rest => if c.isDigit then pyDigitsCore (digitVal c) rest else none

/-- Model of Python `int(s)` on ASCII input: strip whitespace, optional
sign, decimal digits (underscores allowed between digits); `none` models
the `ValueError` raised on anything else. -/
def pyIntParse (s : String) : Option Int :=
  match stripWs s.data with
  | [] => none
  | c :: rest =>
    if c = '-' then (pyIntDigits rest).map (fun n => -(n : Int))
    else if c = '+' then (pyIntDigits rest).map (fun n => (n : Int))
    else (pyIntDigits (c :: rest)).map (fun n => (n : Int))

/-- Decimal digits, most significant first, with explicit fuel (any fuel
above the digit count yields the same digits; the structural recursion
keeps the definition kernel-reducible). -/
def natDigitsReprAux : Nat → Nat → List Char
  | 0, _ => []
  | fuel + 1, n =>
    if n < 10 then [Char.ofNat (48 + n)]
    else natDigitsReprAux fuel (n / 10) ++ [Char.ofNat (48 + n % 10)]

/-- Decimal digits of a natural number, most significant first:
the characters `str()` produces for a nonnegative Python int. -/
def natDigitsRepr (n : Nat) : List Char := natDigitsReprAux (n + 1) n

/-- Model of Python `str(n)` for a nonnegative integer. -/
def pyStr (n : Nat) : String := ⟨natDigitsRepr n⟩

/-- Model of Python `str.lower()` on ASCII text (per-character lowering,
as `Char.toLower` performs on basic latin letters). -/
def pyLower (s : String) : String := ⟨s.data.map Char.toLower⟩

/-- Python truthiness of an optional string (`None` and `""` are falsy). -/
def truthyStr (o : Option String) : Bool :=
  match o with
  | none => false
  | some s => !(s = "")

/-- Python truthiness of an optional integer (`None` and `0` are falsy). -/
def truthyInt (o : Option Int) : Bool :=
  match o with
  | none => false
  | some n => !(n = 0)

/-- Python truthiness of an optional rational (`None` and `0` are falsy). -/
def truthyRat (o : Option ℚ) : Bool :=
  match o with
  | none => false
  | some q => !(q = 0)

/-- Python `", ".join(names)`. -/
def joinComma (l : List String) : String := String.intercalate ", " l

/-- Leading dash-separated segment of a string: `s.split('-')[0]`,
i.e. the prefix of `s` before the first `'-'`. -/
def firstSegment (s : String) : String := ⟨s.data.takeWhile (fun c => !(c = '-'))⟩

/-! ### Data model

`DVD` embeds the persisted fields of `tracker.models.DVD` that the verified
operations read or write (poster image, timestamps and YTS freshness marker
are not touched by them and are omitted). -/

/-- One cached YTS torrent descriptor (only the fields the embedded
operations inspect). -/
structure Torrent where
  quality : String
  url : String
deriving DecidableEq, Repr

/-- A persisted catalog record (`tracker.models.DVD`). -/
structure DVD where
  name : String
  status : String
  media_type : String
  is_tartan_dvd : Bool
  is_box_set : Bool
  box_set_name : String
  is_unopened : Bool
  is_unwatched : Bool
  storage_box : String
  location : String
  copy_number : Nat
  duplicate_notes : String
  tmdb_id : Option Int
  imdb_id : String
  overview : String
  release_year : Option Int
  genres : String
  runtime : Option Int
  rating : Option ℚ
  uk_certification : String
  original_language : String
  budget : Option Int
  revenue : Option Int
  production_companies : String
  tagline : String
  director : String
  yts_data : Option (List Torrent)
  has_cached_torrents : Bool
deriving DecidableEq, Repr

/-- Defaults captured from the bulk upload form (`form_defaults` in the
session). -/
structure FormDefaults where
  default_status : String
  default_media_type : String
  skip_existing : Bool
  default_is_tartan_dvd : Bool
  default_is_box_set : Bool
  default_box_set_name : String
  default_is_unopened : Bool
  default_is_unwatched : Bool
  default_storage_box : String
  default_location : String
deriving DecidableEq, Repr

/-- A TMDB detail payload as consumed by the normalizer: every key is
present-or-absent (`movie_data.get(...)`), list-valued keys are lists of
the `name` strings of their objects. -/
structure MovieData where
  id : Option Int
  imdb_id : Option String
  title : Option String
  overview : Option String
  poster_path : Option String
  release_date : Option String
  genres : List String
  runtime : Option Int
  vote_average : Option ℚ
  uk_certification : Option String
  original_language : Option String
  budget : Option Int
  revenue : Option Int
  production_companies : List String
  tagline : Option String
  director : Option String
deriving DecidableEq, Repr

/-- One staged item of the session-held bulk batch (the per-title dict
built by `bulk_upload`). -/
structure StagedMatch where
  original_title : String
  tmdb_data : Option MovieData
  confirmed : Bool
  removed : Bool
  poster_url : Option String
  error : Option String
deriving DecidableEq, Repr

/-- The session-scoped staged batch (`request.session['bulk_upload_data']`).
`staged` is the `matches` key (renamed: `matches` is reserved in Lean);
`timestamp` is the parsed intake datetime in seconds; `none` embeds a
missing or malformed (`datetime.fromisoformat` raising) timestamp. -/
structure BulkData where
  form_defaults : FormDefaults
  staged : List StagedMatch
  timestamp : Option Int
deriving DecidableEq, Repr

/-- The field map built by `TMDBService.format_movie_data` for record
creation. -/
structure FormattedData where
  tmdb_id : Option Int
  imdb_id : String
  name : String
  overview : String
  poster_path : Option String
  release_year : Option Int
  genres : String
  runtime : Option Int
  rating : Option ℚ
  uk_certification : String
  tmdb_user_score : Option ℚ
  original_language : String
  budget : Option Int
  revenue : Option Int
  production_companies : String
  tagline : String
  director : String
deriving DecidableEq, Repr

/-- The sparse field map built by `TMDBService.format_movie_data_for_refresh`:
a `some` field is a key present in the returned dict. -/
structure RefreshFields where
  imdb_id : Option String
  name : Option String
  overview : Option String
  poster_path : Option String
  release_year : Option Int
  genres : Option String
  runtime : Option Int
  rating : Option ℚ
  uk_certification : Option String
  tmdb_user_score : Option ℚ
  original_language : Option String
  budget : Option Int
  revenue : Option Int
  production_companies : Option String
  tagline : Option String
  director : Option String
deriving DecidableEq, Repr

/-! ### Model layer (`tracker/models.py`) -/

/-- `DVD.save`: normalizes `uk_certification` to lowercase when it is
truthy before persisting. -/
def dvd_save (r : DVD) : DVD :=
  if r.uk_certification ≠ "" then
    { r with uk_certification := pyLower r.uk_certification }
  else r

/-- `DVD.has_torrents`: `False` without an IMDB ID, else whether the cached
`yts_data` list is non-empty; reads stored fields only. -/
def has_torrents (r : DVD) : Bool :=
  if r.imdb_id = "" then false
  else
    match r.yts_data with
    | none => false
    | some l => !l.isEmpty

/-- `YTSService.filter_torrents_by_quality`. -/
def filter_torrents_by_quality (ts : List Torrent) (qs : List String) : List Torrent :=
  ts.filter (fun t => t.quality ∈ qs)

/-- `DVD.refresh_yts_data`, with the external YTS lookup supplied as an
oracle from IMDB ID to the raw torrent list (the service itself fails soft
to `[]`). -/
def refresh_yts_data (yts : String → List Torrent) (r : DVD) : DVD :=
  if r.imdb_id = "" then { r with has_cached_torrents := false }
  else
    let ts := filter_torrents_by_quality (yts r.imdb_id) ["720p", "1080p"]
    { r with yts_data := some ts, has_cached_torrents := !ts.isEmpty }

/-- A record that the raw SQL of `get_next_location_number` counts:
`status = 'unboxed' AND location != '' AND location GLOB '[0-9]*'`
(the GLOB matches any string whose first character is a digit). -/
def locEligible (r : DVD) : Bool :=
  r.status = "unboxed" && !(r.location = "") &&
    (match r.location.data with
     | [] => false
     | c :: _ => c.isDigit)

/-- SQLite `CAST(location AS INTEGER)` on a string whose first character is
a digit: the value of the maximal leading digit run. -/
def castLocVal (s : String) : Nat := digitsVal (s.data.takeWhile Char.isDigit)

/-- `DVD.get_next_location_number`: 1 + `MAX(CAST(location AS INTEGER))`
over eligible unboxed records (`MAX` of no rows is `NULL`, read back
as 0). -/
def get_next_location_number (store : List DVD) : Nat :=
  let vals := store.filterMap (fun r => if locEligible r then some (castLocVal r.location) else none)
  vals.foldl max 0 + 1

/-- `DVD.get_next_sequential_locations`: take the next location once and
increment `count` times. -/
def get_next_sequential_locations (count : Nat) (store : List DVD) : List String :=
  let start_number := get_next_location_number store
  (List.range count).map (fun i => pyStr (start_number + i))

/-! ### Normalizer (`tracker/services.py`, `TMDBService`) -/

/-- `TMDBService._extract_year`: empty or absent date gives `none`,
otherwise `int()` of the segment before the first dash, with the parse
failure mapped to `none`. -/
def extract_year (date_string : Option String) : Option Int :=
  match date_string with
  | none => none
  | some s => if s = "" then none else pyIntParse (firstSegment s)

/-- `TMDBService.format_movie_data`: full field map for creating a record
(absent optional fields default to `''`/`None`). -/
def format_movie_data (m : MovieData) : FormattedData :=
  { tmdb_id := m.id
    imdb_id := m.imdb_id.getD ""
    name := m.title.getD ""
    overview := m.overview.getD ""
    poster_path := m.poster_path
    release_year := extract_year m.release_date
    genres := joinComma m.genres
    runtime := m.runtime
    rating := m.vote_average
    uk_certification := m.uk_certification.getD ""
    tmdb_user_score := m.vote_average
    original_language := m.original_language.getD ""
    budget := m.budget
    revenue := m.revenue
    production_companies := joinComma m.production_companies
    tagline := m.tagline.getD ""
    director := m.director.getD "" }

/-- `TMDBService.format_movie_data_for_refresh`: only fields whose source
value passes the per-field inclusion test are present.  (On an empty
payload the source returns `{}` up front; the field-by-field tests below
also yield the empty map there.) -/
def format_movie_data_for_refresh (m : MovieData) : RefreshFields :=
  { imdb_id := if truthyStr m.imdb_id then m.imdb_id else none
    name := if truthyStr m.title then m.title else none
    overview := if truthyStr m.overview then m.overview else none
    poster_path := if truthyStr m.poster_path then m.poster_path else none
    release_year :=
      match extract_year m.release_date with
      | some y => if y ≠ 0 then some y else none
      | none => none
    genres := if joinComma m.genres ≠ "" then some (joinComma m.genres) else none
    runtime := if truthyInt m.runtime then m.runtime else none
    rating := if truthyRat m.vote_average then m.vote_average else none
    uk_certification := if truthyStr m.uk_certification then m.uk_certification else none
    tmdb_user_score := if truthyRat m.vote_average then m.vote_average else none
    original_language := if truthyStr m.original_language then m.original_language else none
    budget := match m.budget with | some v => some v | none => none
    revenue := match m.revenue with | some v => some v | none => none
    production_companies :=
      if joinComma m.production_companies ≠ "" then some (joinComma m.production_companies) else none
    tagline := if truthyStr m.tagline then m.tagline else none
    director := if truthyStr m.director then m.director else none }

/-! ### Bulk workflow (`tracker/views.py`)

External collaborators (TMDB search and detail lookups, YTS lookups) are
passed as oracle functions; the per-title/per-item `except Exception`
handlers are embedded by pairing each title/item with an optional fault
carrying the exception's message. -/

/-- One TMDB search summary as consumed by intake. -/
structure SearchResult where
  id : Option Int
  poster_path : Option String
deriving DecidableEq, Repr

/-- `TMDBService.get_full_poster_url`. -/
def get_full_poster_url (image_base : String) (poster_path : Option String) : Option String :=
  match poster_path with
  | none => none
  | some p => if p = "" then none else some (image_base ++ p)

/-- The intake loop body of `bulk_upload` for one title: stage an
error-marked item when the search returns nothing, the detail lookup
fails, or an exception (the fault) is raised; otherwise stage the top
result's details as confirmed. -/
def intake_one (search : String → List SearchResult)
    (details : Option Int → Option MovieData) (image_base : String)
    (title : String) (fault : Option String) : StagedMatch :=
  match fault with
  | some msg =>
    { original_title := title, tmdb_data := none, confirmed := false,
      removed := false, poster_url := none, error := some ("Error: " ++ msg) }
  | none =>
    match search title with
    | [] =>
      { original_title := title, tmdb_data := none, confirmed := false,
        removed := false, poster_url := none, error := some "No TMDB matches found" }
    | movie :: _ =>
      match details movie.id with
      | none =>
        { original_title := title, tmdb_data := none, confirmed := false,
          removed := false, poster_url := none, error := some "Could not get movie details" }
      | some md =>
        { original_title := title, tmdb_data := some md, confirmed := true,
          removed := false,
          poster_url := if truthyStr movie.poster_path then
              get_full_poster_url image_base movie.poster_path else none,
          error := none }

/-- The intake loop of `bulk_upload` over a batch of titles, each paired
with its optional per-title exception. -/
def bulk_upload_intake (search : String → List SearchResult)
    (details : Option Int → Option MovieData) (image_base : String)
    (titles : List (String × Option String)) : List StagedMatch :=
  titles.map (fun t => intake_one search details image_base t.1 t.2)

/-- The `update_match` action of `bulk_upload_preview`: when the posted id
is truthy, the index in range, and the detail lookup succeeds, overwrite
the staged payload, mark confirmed and clear the error. -/
def update_match (details : Option Int → Option MovieData) (image_base : String)
    (b : List StagedMatch) (index : Nat) (tmdb_id : Option Int) : List StagedMatch :=
  if truthyInt tmdb_id && index < b.length then
    match details tmdb_id with
    | none => b
    | some md =>
      b.modify (fun m =>
        { m with tmdb_data := some md, confirmed := true,
                 poster_url := if truthyStr md.poster_path then
                     get_full_poster_url image_base md.poster_path else none,
                 error := none }) index
  else b

/-- The `remove_match` action: soft-delete the item at `index`. -/
def remove_match (b : List StagedMatch) (index : Nat) : List StagedMatch :=
  if index < b.length then b.modify (fun m => { m with removed := true }) index else b

/-- The `restore_match` action: undo a soft delete. -/
def restore_match (b : List StagedMatch) (index : Nat) : List StagedMatch :=
  if index < b.length then b.modify (fun m => { m with removed := false }) index else b

/-- Outcome of the session checks at the top of `bulk_upload_preview`. -/
inductive PreviewCheck where
  | redirectNoData
  | redirectExpired
  | render (b : BulkData)
deriving DecidableEq, Repr

/-- The guard at the top of `bulk_upload_preview`: no session data, a
malformed/missing timestamp, or an age beyond 24 hours (86400 s) discards
the batch and redirects to intake. -/
def bulk_upload_preview_guard (now : Int) (sess : Option BulkData) : PreviewCheck :=
  match sess with
  | none => .redirectNoData
  | some b =>
    match b.timestamp with
    | none => .redirectExpired
    | some ts => if now - ts > 86400 then .redirectExpired else .render b

/-- Outcome of the entry checks of `bulk_upload_process`. -/
inductive CommitEntry where
  | redirectIntake
  | redirectPreview
  | run (b : BulkData)
deriving DecidableEq, Repr

/-- The entry of `bulk_upload_process` (Commit): it checks only that
session data exists and that the request is a POST; it performs no
timestamp or expiry check, so `now` is never consulted. -/
def bulk_upload_process_entry (_now : Int) (sess : Option BulkData) (isPost : Bool) : CommitEntry :=
  match sess with
  | none => .redirectIntake
  | some b => if !isPost then .redirectPreview else .run b

/-- An exception raised inside the per-item `try` of the Commit loop,
either before the record write (formatting, duplicate query, the write
itself) or after it (poster download, YTS refresh). -/
inductive ItemFault where
  | beforeCreate (msg : String)
  | afterCreate (msg : String)
deriving DecidableEq, Repr

/-- The message the exception stringifies to. -/
def ItemFault.message : ItemFault → String
  | .beforeCreate m => m
  | .afterCreate m => m

/-- State threaded through the Commit loop: the record store, the
accumulated outcome report, and the pre-computed location iterator. -/
structure CommitState where
  store : List DVD
  added : List String
  skipped : List String
  errors : List String
  locIter : List String
deriving DecidableEq, Repr

/-- The per-item error line of the Commit report. -/
def errLine (title msg : String) : String :=
  "Error processing \x27" ++ title ++ "\x27: " ++ msg

/-- The copy-number resolution of the Commit loop: match by TMDB id when
truthy, else by case-insensitive name plus release year; next number is
max existing + 1, or 1 with no matches. -/
def computeCopyNumber (store : List DVD) (tid : Option Int) (fd : FormattedData) : Nat :=
  if truthyInt tid then
    let existing := store.filter (fun r => r.tmdb_id == tid)
    if existing.isEmpty then 1
    else (existing.map DVD.copy_number).foldl max 0 + 1
  else
    if !(fd.name = "") && truthyInt fd.release_year then
      let existing := store.filter
        (fun r => pyLower r.name == pyLower fd.name && r.release_year == fd.release_year)
      if existing.isEmpty then 1
      else (existing.map DVD.copy_number).foldl max 0 + 1
    else 1

/-- The `DVD.objects.create(...)` call of the Commit loop (fields not
listed there take the model defaults), followed by the `save` hook. -/
def mkCommitDVD (fd : FormattedData) (d : FormDefaults) (copy : Nat) (loc : String) : DVD :=
  dvd_save
    { name := fd.name
      status := d.default_status
      media_type := d.default_media_type
      is_tartan_dvd := d.default_is_tartan_dvd
      is_box_set := d.default_is_box_set
      box_set_name := if d.default_is_box_set then d.default_box_set_name else ""
      is_unopened := d.default_is_unopened
      is_unwatched := d.default_is_unwatched
      storage_box := if d.default_status = "kept" then d.default_storage_box else ""
      location := loc
      copy_number := copy
      duplicate_notes := ""
      tmdb_id := fd.tmdb_id
      imdb_id := fd.imdb_id
      overview := fd.overview
      release_year := fd.release_year
      genres := fd.genres
      runtime := fd.runtime
      rating := fd.rating
      uk_certification := ""
      original_language := ""
      budget := none
      revenue := none
      production_companies := ""
      tagline := ""
      director := ""
      yts_data := none
      has_cached_torrents := false }

/-- The location assignment step of one Commit iteration: with default
disposition unboxed, draw from the iterator (`next(location_iter)`),
falling back to a fresh `get_next_location_number` on exhaustion
(`StopIteration`); otherwise the location stays `''`.  Returns the
assigned location and the remaining iterator. -/
def commitAssignedLoc (d : FormDefaults) (st : CommitState) : String × List String :=
  if d.default_status = "unboxed" then
    match st.locIter with
    | l :: ls => (l, ls)
    | [] => (pyStr (get_next_location_number st.store), ([] : List String))
  else ("", st.locIter)

/-- The record a fault-free Commit iteration persists: the created record
(normalized fields, resolved copy number, assigned location) after the
immediate YTS refresh that follows creation when an IMDB ID is present. -/
def commitRecord (yts : String → List Torrent) (d : FormDefaults)
    (st : CommitState) (md : MovieData) : DVD :=
  let fd := format_movie_data md
  let dvd0 := mkCommitDVD fd d (computeCopyNumber st.store md.id fd) (commitAssignedLoc d st).1
  if !(dvd0.imdb_id = "") then refresh_yts_data yts dvd0 else dvd0

/-- The `try:` body of one Commit iteration, for an item that reached it:
with skip-existing on and a record with the same TMDB id present, record
a skipped outcome (the `get()` raising on several matches is caught as an
error); otherwise normalize, resolve the copy number against the current
store, draw a location, persist and refresh — a fault raised before the
write leaves the store unchanged, a fault after it leaves the created
(unrefreshed) record persisted; both are caught and recorded as error
outcomes with the exception's message. -/
def processItemCore (yts : String → List Torrent) (d : FormDefaults)
    (st : CommitState) (title : String) (md : MovieData) (fault : Option ItemFault) : CommitState :=
  let existing := st.store.filter (fun r => r.tmdb_id == md.id)
  if d.skip_existing && !existing.isEmpty then
    match existing with
    | [e] =>
      { st with skipped := st.skipped ++ [title ++ " (already have: " ++ e.name ++ ")"] }
    | _ =>
      { st with errors := st.errors ++ [errLine title "get() returned more than one DVD"] }
  else
    match fault with
    | some (.beforeCreate msg) =>
      { st with errors := st.errors ++ [errLine title msg] }
    | some (.afterCreate msg) =>
      let dvd0 := mkCommitDVD (format_movie_data md) d
        (computeCopyNumber st.store md.id (format_movie_data md)) (commitAssignedLoc d st).1
      { st with store := st.store ++ [dvd0],
                errors := st.errors ++ [errLine title msg],
                locIter := (commitAssignedLoc d st).2 }
    | none =>
      { st with store := st.store ++ [commitRecord yts d st md],
                added := st.added ++ [(commitRecord yts d st md).name],
                locIter := (commitAssignedLoc d st).2 }

/-- One iteration of the Commit loop of `bulk_upload_process`: removed,
unresolved or unconfirmed items are skipped without an outcome; the rest
go through the `try:` body. -/
def processItem (yts : String → List Torrent) (d : FormDefaults)
    (st : CommitState) (m : StagedMatch) (fault : Option ItemFault) : CommitState :=
  match m.tmdb_data with
  | none => st
  | some md =>
    if m.removed || !m.confirmed then st
    else processItemCore yts d st m.original_title md fault

/-- The Commit loop, in staged order. -/
def processLoop (yts : String → List Torrent) (d : FormDefaults)
    (items : List (StagedMatch × Option ItemFault)) (st : CommitState) : CommitState :=
  items.foldl (fun s p => processItem yts d s p.1 p.2) st

/-- An item the Commit loop produces an outcome for. -/
def commitEligible (m : StagedMatch) : Bool :=
  !m.removed && m.tmdb_data.isSome && m.confirmed

/-- The body of `bulk_upload_process` after its entry checks: pre-compute
one sequential location block for the whole batch when the default
disposition is unboxed, then run the Commit loop. -/
def bulk_upload_process_run (yts : String → List Torrent) (d : FormDefaults)
    (items : List (StagedMatch × Option ItemFault)) (initStore : List DVD) : CommitState :=
  let unboxed_matches := (items.map Prod.fst).filter
    (fun m => commitEligible m && (d.default_status = "unboxed"))
  let locs :=
    if !unboxed_matches.isEmpty && (d.default_status = "unboxed") then
      get_next_sequential_locations unboxed_matches.length initStore
    else []
  processLoop yts d items
    { store := initStore, added := [], skipped := [], errors := [], locIter := locs }

/-- Size of the final per-item outcome report (added / skipped / error). -/
def totalOutcomes (st : CommitState) : Nat :=
  st.added.length + st.skipped.length + st.errors.length

/-- Staged-batch states reachable by the workflow: produced by intake and
closed under the per-item update/remove/restore actions (each request may
consult the external services afresh, so every step takes its own
oracles). -/
inductive ReachableBatch : List StagedMatch → Prop where
  | intake (search : String → List SearchResult) (details : Option Int → Option MovieData)
      (image_base : String) (titles : List (String × Option String)) :
      ReachableBatch (bulk_upload_intake search details image_base titles)
  | update (b : List StagedMatch) (details : Option Int → Option MovieData)
      (image_base : String) (index : Nat) (tmdb_id : Option Int) :
      ReachableBatch b → ReachableBatch (update_match details image_base b index tmdb_id)
  | remove (b : List StagedMatch) (index : Nat) :
      ReachableBatch b → ReachableBatch (remove_match b index)
  | restore (b : List StagedMatch) (index : Nat) :
      ReachableBatch b → ReachableBatch (restore_match b index)

/-! ### Concrete fixtures used by witnesses and counterexamples -/

/-- A fully specified record used as a base for concrete instantiations. -/
def exampleDVD : DVD :=
  { name := "The Matrix", status := "kept", media_type := "physical",
    is_tartan_dvd := false, is_box_set := false, box_set_name := "",
    is_unopened := false, is_unwatched := false, storage_box := "",
    location := "", copy_number := 1, duplicate_notes := "",
    tmdb_id := some 603, imdb_id := "tt0133093", overview := "",
    release_year := some 1999, genres := "", runtime := some 136,
    rating := none, uk_certification := "", original_language := "",
    budget := none, revenue := none, production_companies := "",
    tagline := "", director := "", yts_data := none,
    has_cached_torrents := false }

/-- An unboxed record whose slot identifier starts with a digit but is not
a numeric string. -/
def locCounterRecord : DVD :=
  { exampleDVD with status := "unboxed", location := "9abc" }

/-- Concrete form defaults. -/
def exampleDefaults : FormDefaults :=
  { default_status := "kept", default_media_type := "physical",
    skip_existing := false, default_is_tartan_dvd := false,
    default_is_box_set := false, default_box_set_name := "",
    default_is_unopened := false, default_is_unwatched := false,
    default_storage_box := "", default_location := "" }

/-- A staged batch whose intake timestamp is the epoch. -/
def staleBatch : BulkData :=
  { form_defaults := exampleDefaults, staged := [], timestamp := some 0 }

/-- Concrete form defaults with default disposition unboxed. -/
def unboxedDefaults : FormDefaults :=
  { default_status := "unboxed", default_media_type := "physical",
    skip_existing := false, default_is_tartan_dvd := false,
    default_is_box_set := false, default_box_set_name := "",
    default_is_unopened := false, default_is_unwatched := false,
    default_storage_box := "", default_location := "" }

/-- A payload resolving to external ID 603. -/
def matrixPayload1 : MovieData :=
  { id := some 603, imdb_id := some "tt0133093", title := some "The Matrix",
    overview := some "A hacker learns the truth.", poster_path := none,
    release_date := some "1999-03-30", genres := ["Action"], runtime := some 136,
    vote_average := some 8, uk_certification := some "15", original_language := some "en",
    budget := some 63000000, revenue := some 463517383, production_companies := [],
    tagline := none, director := some "Lana Wachowski, Lilly Wachowski" }

/-- A second payload resolving to the same external ID 603. -/
def matrixPayload2 : MovieData :=
  { matrixPayload1 with overview := some "Same film, second copy." }

/-- Two confirmed staged items both resolving to external ID 603. -/
def copyItem1 : StagedMatch :=
  { original_title := "The Matrix", tmdb_data := some matrixPayload1,
    confirmed := true, removed := false, poster_url := none, error := none }

/-- See `copyItem1`. -/
def copyItem2 : StagedMatch :=
  { copyItem1 with tmdb_data := some matrixPayload2 }

/-- A resolved payload used by witnesses. -/
def faultyPayload : MovieData :=
  { id := none, imdb_id := none, title := some "Dune", overview := none,
    poster_path := none, release_date := none, genres := [], runtime := none,
    vote_average := none, uk_certification := none, original_language := none,
    budget := none, revenue := none, production_companies := [],
    tagline := none, director := none }

/-- A confirmed staged item used by witnesses. -/
def faultyItem : StagedMatch :=
  { original_title := "Dune", tmdb_data := some faultyPayload,
    confirmed := true, removed := false, poster_url := none, error := none }

/-- The payload of the spec example: zero budget and empty tagline. -/
def examplePayload : MovieData :=
  { id := none, imdb_id := none, title := none, overview := none,
    poster_path := none, release_date := none, genres := [],
    runtime := none, vote_average := none, uk_certification := none,
    original_language := none, budget := some 0, revenue := none,
    production_companies := [], tagline := some "", director := none }

/-! ### Basic lemmas about the primitives -/

theorem char_toNat_ofNat_valid (n : Nat) (h : n < 55296) :
    (Char.ofNat n).toNat = n := by
  have hv : n.isValidChar := Or.inl h
  rw [Char.ofNat, dif_pos hv]
  simp [Char.ofNatAux, Char.toNat, UInt32.toNat, UInt32.ofNat']

theorem char_toLower_idem (c : Char) : c.toLower.toLower = c.toLower := by
  unfold Char.toLower
  by_cases h : c.toNat ≥ 65 ∧ c.toNat ≤ 90
  · rw [if_pos h]
    have hn : (Char.ofNat (c.toNat + 32)).toNat = c.toNat + 32 :=
      char_toNat_ofNat_valid _ (by omega)
    rw [if_neg (by omega)]
  · rw [if_neg h, if_neg h]

theorem pyLower_idem (s : String) : pyLower (pyLower s) = pyLower s := by
  unfold pyLower
  simp [List.map_map, Function.comp_def, char_toLower_idem]

theorem digitsVal_append (l1 l2 : List Char) :
    digitsVal (l1 ++ l2) = l2.foldl (fun a c => a * 10 + digitVal c) (digitsVal l1) := by
  unfold digitsVal
  rw [List.foldl_append]

theorem digitsVal_natDigitsReprAux (fuel : Nat) :
    ∀ n : Nat, n < fuel → digitsVal (natDigitsReprAux fuel n) = n := by
  induction fuel with
  | zero => intro n h; omega
  | succ f ih =>
    intro n h
    have hstep : natDigitsReprAux (f + 1) n =
        if n < 10 then [Char.ofNat (48 + n)]
        else natDigitsReprAux f (n / 10) ++ [Char.ofNat (48 + n % 10)] := rfl
    rw [hstep]
    by_cases h10 : n < 10
    · rw [if_pos h10]
      unfold digitsVal digitVal
      simp [char_toNat_ofNat_valid (48 + n) (by omega)]
    · rw [if_neg h10]
      have hlt : n / 10 < f := by
        have := Nat.div_lt_self (by omega : 0 < n) (by omega : 1 < 10)
        omega
      rw [digitsVal_append, ih (n / 10) hlt]
      unfold digitVal
      simp [char_toNat_ofNat_valid (48 + n % 10) (by omega)]
      omega

theorem digitsVal_natDigitsRepr (n : Nat) : digitsVal (natDigitsRepr n) = n :=
  digitsVal_natDigitsReprAux (n + 1) n (Nat.lt_succ_self n)

theorem pyStr_injective : Function.Injective pyStr := by
  intro a b h
  unfold pyStr at h
  have : natDigitsRepr a = natDigitsRepr b := congrArg String.data h
  calc a = digitsVal (natDigitsRepr a) := (digitsVal_natDigitsRepr a).symm
    _ = digitsVal (natDigitsRepr b) := by rw [this]
    _ = b := digitsVal_natDigitsRepr b

theorem dropWhile_eq_self_of_all {p : Char → Bool} {l : List Char}
    (h : ∀ c ∈ l, ¬ p c) : l.dropWhile p = l := by
  cases l with
  | nil => rfl
  | cons c rest =>
    rw [List.dropWhile_cons]
    simp [h c (by simp)]

theorem stripWs_of_digits {l : List Char} (h : ∀ c ∈ l, c.isDigit) :
    stripWs l = l := by
  have hnp : ∀ c ∈ l, ¬ isPySpace c := by
    intro c hc hsp
    have hd := h c hc
    unfold isPySpace at hsp
    unfold Char.isDigit at hd
    simp only [Bool.or_eq_true, decide_eq_true_eq, Bool.and_eq_true] at hsp hd
    rcases hsp with ((((h1 | h1) | h1) | h1) | h1) | h1 <;>
      (subst h1; revert hd; decide)
  unfold stripWs
  rw [dropWhile_eq_self_of_all hnp]
  rw [dropWhile_eq_self_of_all (by intro c hc; exact hnp c (List.mem_reverse.mp hc))]
  exact List.reverse_reverse l

theorem pyDigitsCore_all_digits {l : List Char} (acc : Nat)
    (h : ∀ c ∈ l, c.isDigit) :
    pyDigitsCore acc l = some (l.foldl (fun a c => a * 10 + digitVal c) acc) := by
  induction l generalizing acc with
  | nil => rfl
  | cons c rest ih =>
    have hc : c.isDigit := h c (by simp)
    rw [pyDigitsCore.eq_def]
    simp only [hc, if_true, List.foldl_cons]
    exact ih _ (fun d hd => h d (by simp [hd]))

theorem pyIntDigits_all_digits {l : List Char} (h : ∀ c ∈ l, c.isDigit)
    (hne : l ≠ []) : pyIntDigits l = some (digitsVal l) := by
  cases l with
  | nil => exact absurd rfl hne
  | cons c rest =>
    have hc : c.isDigit := h c (by simp)
    simp only [pyIntDigits, hc, if_true]
    rw [pyDigitsCore_all_digits _ (fun d hd => h d (by simp [hd]))]
    unfold digitsVal
    rw [List.foldl_cons]
    simp

theorem pyIntParse_digits {l : List Char} (h : ∀ c ∈ l, c.isDigit)
    (hne : l ≠ []) : pyIntParse ⟨l⟩ = some (digitsVal l) := by
  unfold pyIntParse
  rw [show (String.mk l).data = l from rfl, stripWs_of_digits h]
  cases l with
  | nil => exact absurd rfl hne
  | cons c rest =>
    have hc : c.isDigit := h c (by simp)
    have hcd : c ≠ '-' := by intro hx; subst hx; revert hc; decide
    have hcp : c ≠ '+' := by intro hx; subst hx; revert hc; decide
    simp only [hcd, hcp, if_false]
    rw [pyIntDigits_all_digits h hne]
    rfl

theorem foldl_max_le_seed {l : List Nat} (a : Nat) : a ≤ l.foldl max a := by
  induction l generalizing a with
  | nil => exact Nat.le_refl _
  | cons y rest ih => exact Nat.le_trans (Nat.le_max_left a y) (ih (max a y))

/-- Upper bound for a left fold of `max`. -/
theorem foldl_max_le_mem {l : List Nat} {x a : Nat} (h : x ∈ l) :
    x ≤ l.foldl max a := by
  induction l generalizing a with
  | nil => cases h
  | cons y rest ih =>
    rcases List.mem_cons.mp h with h1 | h1
    · subst h1
      exact Nat.le_trans (Nat.le_max_right a x) (foldl_max_le_seed _)
    · exact ih h1

/-- A left fold of `max` is the seed or attained by an element. -/
theorem foldl_max_cases (l : List Nat) (a : Nat) :
    l.foldl max a = a ∨ l.foldl max a ∈ l := by
  induction l generalizing a with
  | nil => exact Or.inl rfl
  | cons y rest ih =>
    simp only [List.foldl_cons]
    rcases ih (max a y) with h | h
    · rw [h]
      rcases Nat.le_total a y with hle | hle
      · exact Or.inr (by simp [Nat.max_eq_right hle])
      · exact Or.inl (Nat.max_eq_left hle)
    · exact Or.inr (List.mem_cons_of_mem _ h)

theorem takeWhile_all_append_cons {p : Char → Bool} {y rest : List Char} {b : Char}
    (hy : ∀ c ∈ y, p c) (hb : ¬ p b) :
    (y ++ b :: rest).takeWhile p = y := by
  induction y with
  | nil => simp [List.takeWhile_cons, hb]
  | cons a as ih =>
    simp only [List.cons_append, List.takeWhile_cons, hy a (by simp), if_true]
    rw [ih (fun c hc => hy c (by simp [hc]))]

theorem isSome_if_truthy (o : Option String) :
    (if truthyStr o then o else none).isSome = truthyStr o := by
  cases o with
  | none => simp [truthyStr]
  | some s => by_cases h : s = "" <;> simp [truthyStr, h]

theorem pyLower_eq_empty_iff (s : String) : pyLower s = "" ↔ s = "" := by
  constructor
  · intro h
    have hd : s.data.map Char.toLower = ([] : List Char) := congrArg String.data h
    have : s.data = [] := by
      cases hs : s.data with
      | nil => rfl
      | cons c cs => rw [hs] at hd; simp at hd
    cases s with
    | mk d => simp at this; rw [this]
  · intro h; rw [h]; rfl

/-! ### Claim theorems -/

/-- C7: for every "YYYY-MM-DD"-shaped date string, year extraction returns
the integer value of the leading 4-digit segment; absent or empty input,
and any input whose leading dash-separated segment fails integer parsing,
yield `none`.  (`extract_year` is a total function: it never raises.) -/
theorem extract_year_claim :
    (∀ y mo dy : List Char, y.length = 4 → (∀ c ∈ y, c.isDigit) →
      mo.length = 2 → (∀ c ∈ mo, c.isDigit) →
      dy.length = 2 → (∀ c ∈ dy, c.isDigit) →
      extract_year (some ⟨y ++ '-' :: (mo ++ '-' :: dy)⟩) = some ((digitsVal y : Int))) ∧
    extract_year none = none ∧
    extract_year (some "") = none ∧
    (∀ s : String, ¬ s = "" → pyIntParse (firstSegment s) = none →
      extract_year (some s) = none) := by
  refine ⟨?_, rfl, rfl, ?_⟩
  · intro y mo dy hy4 hyd _ _ _ _
    have hyne : y ≠ [] := by intro h; rw [h] at hy4; simp at hy4
    have hne : ¬ (⟨y ++ '-' :: (mo ++ '-' :: dy)⟩ : String) = "" := by
      intro h
      have : y ++ '-' :: (mo ++ '-' :: dy) = [] := congrArg String.data h
      simp at this
    rw [show extract_year (some ⟨y ++ '-' :: (mo ++ '-' :: dy)⟩) =
        if (⟨y ++ '-' :: (mo ++ '-' :: dy)⟩ : String) = "" then none
        else pyIntParse (firstSegment ⟨y ++ '-' :: (mo ++ '-' :: dy)⟩) from rfl]
    rw [if_neg hne]
    have hseg : firstSegment ⟨y ++ '-' :: (mo ++ '-' :: dy)⟩ = ⟨y⟩ := by
      unfold firstSegment
      congr 1
      exact takeWhile_all_append_cons
        (fun c hc => by
          have hd := hyd c hc
          by_cases hcc : c = '-'
          · subst hcc; revert hd; decide
          · simp [hcc])
        (by decide)
    rw [hseg, pyIntParse_digits hyd hyne]
    rfl
  · intro s hne hparse
    rw [show extract_year (some s) =
        if s = "" then none else pyIntParse (firstSegment s) from rfl]
    rw [if_neg hne, hparse]

/-- C7 witness: the theorem applied at "2023-05-17" and at a string whose
leading segment is not numeric. -/
theorem extract_year_claim_witness :
    extract_year (some "2023-05-17") = some 2023 ∧
    extract_year (some "abcd") = none := by
  constructor
  · have h := extract_year_claim.1 "2023".data "05".data "17".data
      (by decide) (by decide) (by decide) (by decide) (by decide) (by decide)
    have he : (⟨"2023".data ++ '-' :: ("05".data ++ '-' :: "17".data)⟩ : String) =
        "2023-05-17" := by decide
    rw [he] at h
    rw [h]
    decide
  · exact extract_year_claim.2.2.2 "abcd" (by decide) (by decide)

/-- C8: every record write stores a lowercase certification (the
normalization happens in `save`), the normalization is idempotent, an
already-lowercase value is stored unchanged, and "12A" is stored as
"12a". -/
theorem certification_normalization_claim :
    (∀ r : DVD, pyLower ((dvd_save r).uk_certification) = (dvd_save r).uk_certification) ∧
    (∀ r : DVD, dvd_save (dvd_save r) = dvd_save r) ∧
    (∀ r : DVD, pyLower r.uk_certification = r.uk_certification → dvd_save r = r) ∧
    (∀ r : DVD, r.uk_certification = "12A" → (dvd_save r).uk_certification = "12a") := by
  refine ⟨?_, ?_, ?_, ?_⟩
  · intro r
    unfold dvd_save
    by_cases h : r.uk_certification = ""
    · simp [h]
      decide
    · simp only [h, ne_eq, not_false_iff, if_true]
      exact pyLower_idem r.uk_certification
  · intro r
    unfold dvd_save
    by_cases h : r.uk_certification = ""
    · simp [h]
    · simp only [h, ne_eq, not_false_iff, if_true]
      have h2 : ¬ pyLower r.uk_certification = "" :=
        fun hx => h ((pyLower_eq_empty_iff r.uk_certification).mp hx)
      simp [h2, pyLower_idem]
  · intro r hlow
    unfold dvd_save
    by_cases h : r.uk_certification = ""
    · simp [h]
    · simp [h, hlow]
  · intro r h
    unfold dvd_save
    rw [h]
    rw [if_pos (by decide : ¬ ("12A" : String) = "")]
    show pyLower "12A" = "12a"
    decide

/-- C8 witness: the theorem applied at concrete records with
certifications "12A" and "pg". -/
theorem certification_normalization_claim_witness :
    (dvd_save { exampleDVD with uk_certification := "12A" }).uk_certification = "12a" ∧
    dvd_save { exampleDVD with uk_certification := "pg" } =
      { exampleDVD with uk_certification := "pg" } := by
  constructor
  · exact certification_normalization_claim.2.2.2
      { exampleDVD with uk_certification := "12A" } rfl
  · exact certification_normalization_claim.2.2.1
      { exampleDVD with uk_certification := "pg" } (by decide)

/-- C10: `has_torrents` is false whenever the IMDB cross-reference is
empty, regardless of the cached torrent list; with a non-empty ID it holds
exactly when the cached list is a non-empty list; and it reads only the
stored `imdb_id` and `yts_data` fields. -/
theorem has_torrents_claim :
    (∀ r : DVD, r.imdb_id = "" → has_torrents r = false) ∧
    (∀ r : DVD, ¬ r.imdb_id = "" →
      (has_torrents r = true ↔ ∃ l, r.yts_data = some l ∧ l ≠ [])) ∧
    (∀ r s : DVD, r.imdb_id = s.imdb_id → r.yts_data = s.yts_data →
      has_torrents r = has_torrents s) := by
  refine ⟨?_, ?_, ?_⟩
  · intro r h
    unfold has_torrents
    rw [if_pos h]
  · intro r h
    unfold has_torrents
    rw [if_neg h]
    cases hy : r.yts_data with
    | none => simp
    | some l =>
      cases l with
      | nil => simp
      | cons t ts => simp
  · intro r s h1 h2
    unfold has_torrents
    rw [h1, h2]

/-- C10 witness: the theorem applied at concrete records — an empty ID
with a cached torrent still reports false; a present ID reports the cache
state. -/
theorem has_torrents_claim_witness :
    has_torrents { exampleDVD with imdb_id := "", yts_data := some [⟨"720p", "u"⟩] } = false ∧
    has_torrents { exampleDVD with yts_data := some [⟨"720p", "u"⟩] } = true := by
  constructor
  · exact has_torrents_claim.1 _ rfl
  · exact (has_torrents_claim.2.1 { exampleDVD with yts_data := some [⟨"720p", "u"⟩] }
      (by decide)).mpr ⟨[⟨"720p", "u"⟩], rfl, by decide⟩

/-- C2: in the refresh field map, the numeric fields `budget` and
`revenue` are included exactly when non-null (zero kept, value preserved);
every string field exactly when truthy; every list field exactly when its
comma-join is non-empty; the payload with zero budget and empty tagline
keeps `budget = 0` and drops `tagline`. -/
theorem format_refresh_claim :
    (∀ m : MovieData, (format_movie_data_for_refresh m).budget = m.budget) ∧
    (∀ m : MovieData, (format_movie_data_for_refresh m).revenue = m.revenue) ∧
    (∀ m : MovieData, ((format_movie_data_for_refresh m).imdb_id.isSome ↔ truthyStr m.imdb_id = true)) ∧
    (∀ m : MovieData, ((format_movie_data_for_refresh m).name.isSome ↔ truthyStr m.title = true)) ∧
    (∀ m : MovieData, ((format_movie_data_for_refresh m).overview.isSome ↔ truthyStr m.overview = true)) ∧
    (∀ m : MovieData, ((format_movie_data_for_refresh m).poster_path.isSome ↔ truthyStr m.poster_path = true)) ∧
    (∀ m : MovieData, ((format_movie_data_for_refresh m).uk_certification.isSome ↔ truthyStr m.uk_certification = true)) ∧
    (∀ m : MovieData, ((format_movie_data_for_refresh m).original_language.isSome ↔ truthyStr m.original_language = true)) ∧
    (∀ m : MovieData, ((format_movie_data_for_refresh m).tagline.isSome ↔ truthyStr m.tagline = true)) ∧
    (∀ m : MovieData, ((format_movie_data_for_refresh m).director.isSome ↔ truthyStr m.director = true)) ∧
    (∀ m : MovieData, ((format_movie_data_for_refresh m).genres.isSome ↔ ¬ joinComma m.genres = "")) ∧
    (∀ m : MovieData, ((format_movie_data_for_refresh m).production_companies.isSome ↔
      ¬ joinComma m.production_companies = "")) ∧
    (format_movie_data_for_refresh examplePayload).budget = some 0 ∧
    (format_movie_data_for_refresh examplePayload).tagline = none := by
  refine ⟨?_, ?_, ?_, ?_, ?_, ?_, ?_, ?_, ?_, ?_, ?_, ?_, by decide, by decide⟩
  · intro m
    cases h : m.budget <;> simp [format_movie_data_for_refresh, h]
  · intro m
    cases h : m.revenue <;> simp [format_movie_data_for_refresh, h]
  all_goals
    intro m
    simp only [format_movie_data_for_refresh, isSome_if_truthy]
  all_goals
    first
      | exact Iff.rfl
      | (split <;> simp_all)

/-- C5 counterexample: a store whose only unboxed record has the
non-numeric slot identifier "9abc" (the repository's own location
validation, `int(location)`, rejects it) makes `get_next_location_number`
return 10, not the 1 the claim requires when no numeric identifier
exists. -/
theorem get_next_location_number_counterexample :
    pyIntParse "9abc" = none ∧
    locCounterRecord.status = "unboxed" ∧
    get_next_location_number [locCounterRecord] = 10 ∧
    ¬ get_next_location_number [locCounterRecord] = 1 := by
  refine ⟨by decide, rfl, by decide, by decide⟩

theorem get_next_location_number_eq (store : List DVD) :
    get_next_location_number store =
      (store.filterMap
        (fun r => if locEligible r then some (castLocVal r.location) else none)).foldl max 0 + 1 := rfl

theorem bulk_upload_preview_guard_some (now : Int) (b : BulkData) :
    bulk_upload_preview_guard now (some b) =
      match b.timestamp with
      | none => PreviewCheck.redirectExpired
      | some ts =>
        if now - ts > 86400 then PreviewCheck.redirectExpired else PreviewCheck.render b := rfl

/-- C5 (amended): `get_next_location_number` returns 1 plus the maximum,
over in-transit-unboxed records whose slot identifier starts with a
decimal digit, of the value of the identifier's leading digit run
(identifiers not starting with a digit, and empty ones, are ignored), and
returns 1 when no such record exists. -/
theorem get_next_location_number_claim :
    (∀ store : List DVD, 1 ≤ get_next_location_number store) ∧
    (∀ (store : List DVD) (r : DVD), r ∈ store → locEligible r →
      castLocVal r.location < get_next_location_number store) ∧
    (∀ store : List DVD, get_next_location_number store = 1 ∨
      ∃ r ∈ store, locEligible r ∧
        get_next_location_number store = castLocVal r.location + 1) := by
  refine ⟨?_, ?_, ?_⟩
  · intro store
    rw [get_next_location_number_eq]
    omega
  · intro store r hr hel
    rw [get_next_location_number_eq]
    have hmem : castLocVal r.location ∈
        store.filterMap (fun r => if locEligible r then some (castLocVal r.location) else none) := by
      rw [List.mem_filterMap]
      exact ⟨r, hr, by rw [if_pos hel]⟩
    have := foldl_max_le_mem (a := 0) hmem
    omega
  · intro store
    rw [get_next_location_number_eq]
    rcases foldl_max_cases
      (store.filterMap (fun r => if locEligible r then some (castLocVal r.location) else none)) 0
      with h | h
    · left; rw [h]
    · right
      rcases List.mem_filterMap.mp h with ⟨r, hr, hf⟩
      by_cases hel : locEligible r
      · rw [if_pos hel] at hf
        exact ⟨r, hr, hel, by rw [← Option.some_inj.mp hf]⟩
      · rw [if_neg hel] at hf
        cases hf

/-- C5 witness: the amended theorem applied at the "9abc" store — the
bound and attainment parts evaluated concretely. -/
theorem get_next_location_number_claim_witness :
    castLocVal locCounterRecord.location < get_next_location_number [locCounterRecord] ∧
    1 ≤ get_next_location_number [] := by
  constructor
  · exact get_next_location_number_claim.2.1 [locCounterRecord] locCounterRecord
      (by simp) (by decide)
  · exact get_next_location_number_claim.1 []

/-- C3 counterexample: a Commit POST on a batch staged 25 hours earlier
(timestamp 0, now 90000 s) is run, not discarded with a redirect to
intake — `bulk_upload_process` performs no expiry check. -/
theorem session_expiry_counterexample :
    (90000 : Int) - 0 > 86400 ∧
    bulk_upload_process_entry 90000 (some staleBatch) true = CommitEntry.run staleBatch ∧
    ¬ bulk_upload_process_entry 90000 (some staleBatch) true = CommitEntry.redirectIntake := by
  refine ⟨by decide, rfl, by decide⟩

/-- C3 (amended): every request to the preview endpoint (all Staged-state
rendering and per-item actions) first checks the batch's age — more than
24 hours past discards the batch and redirects to intake, within 24 hours
does not, and a missing or malformed timestamp is treated as expired; the
Commit POST, however, performs no age check: it runs for any existing
batch regardless of its timestamp, and redirects to intake only when no
batch exists. -/
theorem session_expiry_claim :
    (∀ now : Int, bulk_upload_preview_guard now none = PreviewCheck.redirectNoData) ∧
    (∀ (now : Int) (b : BulkData), b.timestamp = none →
      bulk_upload_preview_guard now (some b) = PreviewCheck.redirectExpired) ∧
    (∀ (now : Int) (b : BulkData) (ts : Int), b.timestamp = some ts → 86400 < now - ts →
      bulk_upload_preview_guard now (some b) = PreviewCheck.redirectExpired) ∧
    (∀ (now : Int) (b : BulkData) (ts : Int), b.timestamp = some ts → now - ts ≤ 86400 →
      bulk_upload_preview_guard now (some b) = PreviewCheck.render b) ∧
    (∀ (now : Int) (b : BulkData), bulk_upload_process_entry now (some b) true = CommitEntry.run b) ∧
    (∀ now : Int, bulk_upload_process_entry now none true = CommitEntry.redirectIntake) := by
  refine ⟨fun _ => rfl, ?_, ?_, ?_, fun _ _ => rfl, fun _ => rfl⟩
  · intro now b h
    rw [bulk_upload_preview_guard_some, h]
  · intro now b ts h hgt
    rw [bulk_upload_preview_guard_some, h]
    show (if now - ts > 86400 then PreviewCheck.redirectExpired else PreviewCheck.render b) = _
    rw [if_pos hgt]
  · intro now b ts h hle
    rw [bulk_upload_preview_guard_some, h]
    show (if now - ts > 86400 then PreviewCheck.redirectExpired else PreviewCheck.render b) = _
    rw [if_neg (by omega : ¬ now - ts > 86400)]

/-- C3 witness: the amended theorem applied at a batch staged at the
epoch, seen 25 hours later (expired) and 23 hours later (not expired),
and at the Commit POST 25 hours later (still run). -/
theorem session_expiry_claim_witness :
    bulk_upload_preview_guard 90000 (some staleBatch) = PreviewCheck.redirectExpired ∧
    bulk_upload_preview_guard 82800 (some staleBatch) = PreviewCheck.render staleBatch ∧
    bulk_upload_process_entry 90000 (some staleBatch) true = CommitEntry.run staleBatch := by
  refine ⟨?_, ?_, ?_⟩
  · exact session_expiry_claim.2.2.1 90000 staleBatch 0 rfl (by decide)
  · exact session_expiry_claim.2.2.2.1 82800 staleBatch 0 rfl (by decide)
  · exact session_expiry_claim.2.2.2.2.1 90000 staleBatch

/-! ### Structure of the Commit loop -/

theorem processLoop_nil (yts : String → List Torrent) (d : FormDefaults) (st : CommitState) :
    processLoop yts d [] st = st := rfl

theorem processLoop_cons (yts : String → List Torrent) (d : FormDefaults)
    (p : StagedMatch × Option ItemFault) (l : List (StagedMatch × Option ItemFault))
    (st : CommitState) :
    processLoop yts d (p :: l) st = processLoop yts d l (processItem yts d st p.1 p.2) := rfl

theorem processLoop_append (yts : String → List Torrent) (d : FormDefaults)
    (l1 l2 : List (StagedMatch × Option ItemFault)) (st : CommitState) :
    processLoop yts d (l1 ++ l2) st = processLoop yts d l2 (processLoop yts d l1 st) := by
  unfold processLoop
  rw [List.foldl_append]

theorem processItem_data_none (yts : String → List Torrent) (d : FormDefaults)
    (st : CommitState) (m : StagedMatch) (f : Option ItemFault)
    (hd : m.tmdb_data = none) : processItem yts d st m f = st := by
  simp [processItem, hd]

theorem processItem_not_eligible (yts : String → List Torrent) (d : FormDefaults)
    (st : CommitState) (m : StagedMatch) (f : Option ItemFault)
    (h : commitEligible m = false) : processItem yts d st m f = st := by
  cases hd : m.tmdb_data with
  | none => exact processItem_data_none yts d st m f hd
  | some md =>
    have hcond : (m.removed || !m.confirmed) = true := by
      unfold commitEligible at h
      rw [hd] at h
      revert h
      cases m.removed <;> cases m.confirmed <;> simp
    simp [processItem, hd, hcond]

theorem processItem_eligible (yts : String → List Torrent) (d : FormDefaults)
    (st : CommitState) (m : StagedMatch) (md : MovieData) (f : Option ItemFault)
    (hd : m.tmdb_data = some md) (hr : m.removed = false) (hc : m.confirmed = true) :
    processItem yts d st m f = processItemCore yts d st m.original_title md f := by
  simp [processItem, hd, hr, hc]

theorem totalOutcomes_processItemCore (yts : String → List Torrent) (d : FormDefaults)
    (st : CommitState) (title : String) (md : MovieData) (f : Option ItemFault) :
    totalOutcomes (processItemCore yts d st title md f) = totalOutcomes st + 1 := by
  cases f with
  | none =>
    simp only [processItemCore]
    split <;>
      first
        | (split <;> (simp [totalOutcomes]; omega))
        | (simp [totalOutcomes]; omega)
  | some ff =>
    cases ff <;>
      (simp only [processItemCore]
       split <;>
         first
           | (split <;> (simp [totalOutcomes]; omega))
           | (simp [totalOutcomes]; omega))

theorem totalOutcomes_processItem (yts : String → List Torrent) (d : FormDefaults)
    (st : CommitState) (m : StagedMatch) (f : Option ItemFault) :
    totalOutcomes (processItem yts d st m f) =
      totalOutcomes st + (if commitEligible m then 1 else 0) := by
  by_cases h : commitEligible m
  · rw [if_pos h]
    unfold commitEligible at h
    cases hd : m.tmdb_data with
    | none => rw [hd] at h; simp at h
    | some md =>
      rw [hd] at h
      simp only [Bool.and_eq_true, Bool.not_eq_true'] at h
      rw [processItem_eligible yts d st m md f hd h.1.1 h.2]
      exact totalOutcomes_processItemCore yts d st m.original_title md f
  · rw [if_neg h, processItem_not_eligible yts d st m f (by revert h; cases commitEligible m <;> simp)]
    omega

theorem totalOutcomes_processLoop (yts : String → List Torrent) (d : FormDefaults)
    (items : List (StagedMatch × Option ItemFault)) (st : CommitState) :
    totalOutcomes (processLoop yts d items st) =
      totalOutcomes st + ((items.map Prod.fst).filter commitEligible).length := by
  induction items generalizing st with
  | nil => simp [processLoop_nil]
  | cons p l ih =>
    rw [processLoop_cons, ih]
    rw [totalOutcomes_processItem]
    by_cases h : commitEligible p.1
    · simp [h]
      omega
    · simp [h]

theorem processItem_errors_prefix (yts : String → List Torrent) (d : FormDefaults)
    (st : CommitState) (m : StagedMatch) (f : Option ItemFault) :
    ∃ suf, (processItem yts d st m f).errors = st.errors ++ suf := by
  cases hd : m.tmdb_data with
  | none => exact ⟨[], by rw [processItem_data_none yts d st m f hd]; simp⟩
  | some md =>
    by_cases hr : m.removed = false
    · by_cases hc : m.confirmed = true
      · rw [processItem_eligible yts d st m md f hd hr hc]
        cases f with
        | none =>
          simp only [processItemCore]
          split
          · split
            · exact ⟨[], by simp⟩
            · exact ⟨[errLine m.original_title "get() returned more than one DVD"], by simp⟩
          · exact ⟨[], by simp⟩
        | some ff =>
          cases ff with
          | beforeCreate msg =>
            simp only [processItemCore]
            split
            · split
              · exact ⟨[], by simp⟩
              · exact ⟨[errLine m.original_title "get() returned more than one DVD"], by simp⟩
            · exact ⟨[errLine m.original_title msg], by simp⟩
          | afterCreate msg =>
            simp only [processItemCore]
            split
            · split
              · exact ⟨[], by simp⟩
              · exact ⟨[errLine m.original_title "get() returned more than one DVD"], by simp⟩
            · exact ⟨[errLine m.original_title msg], by simp⟩
      · refine ⟨[], ?_⟩
        rw [processItem_not_eligible yts d st m f ?_]
        · simp
        · unfold commitEligible
          rw [hd]
          revert hc
          cases m.confirmed <;> simp
    · refine ⟨[], ?_⟩
      rw [processItem_not_eligible yts d st m f ?_]
      · simp
      · unfold commitEligible
        revert hr
        cases m.removed <;> simp

theorem processLoop_errors_prefix (yts : String → List Torrent) (d : FormDefaults)
    (items : List (StagedMatch × Option ItemFault)) (st : CommitState) :
    ∃ suf, (processLoop yts d items st).errors = st.errors ++ suf := by
  induction items generalizing st with
  | nil => exact ⟨[], by rw [processLoop_nil]; simp⟩
  | cons p l ih =>
    rw [processLoop_cons]
    rcases ih (processItem yts d st p.1 p.2) with ⟨s2, h2⟩
    rcases processItem_errors_prefix yts d st p.1 p.2 with ⟨s1, h1⟩
    exact ⟨s1 ++ s2, by rw [h2, h1, List.append_assoc]⟩

theorem processItemCore_fault_errors (yts : String → List Torrent) (d : FormDefaults)
    (st : CommitState) (title : String) (md : MovieData) (fault : ItemFault)
    (hskip : (d.skip_existing && !(st.store.filter (fun r => r.tmdb_id == md.id)).isEmpty) = false) :
    (processItemCore yts d st title md (some fault)).errors =
      st.errors ++ [errLine title fault.message] := by
  cases fault <;> simp [processItemCore, hskip, ItemFault.message]

/-- C4: inside Commit, a per-item exception is caught and never aborts the
batch — the loop is the fold of the item step, so a faulting item's
successors are processed from the state it left; the caught exception is
recorded as an error outcome carrying its message; and the final report
has exactly one outcome (added / skipped / error) per non-removed,
confirmed, resolved item, whatever faults occur. -/
theorem commit_error_isolation_claim :
    (∀ (yts : String → List Torrent) (d : FormDefaults)
        (items : List (StagedMatch × Option ItemFault)) (st : CommitState),
      totalOutcomes (processLoop yts d items st) =
        totalOutcomes st + ((items.map Prod.fst).filter commitEligible).length) ∧
    (∀ (yts : String → List Torrent) (d : FormDefaults)
        (pre post : List (StagedMatch × Option ItemFault)) (m : StagedMatch)
        (fault : ItemFault) (st : CommitState),
      processLoop yts d (pre ++ (m, some fault) :: post) st =
        processLoop yts d post
          (processItem yts d (processLoop yts d pre st) m (some fault))) ∧
    (∀ (yts : String → List Torrent) (d : FormDefaults)
        (pre post : List (StagedMatch × Option ItemFault)) (m : StagedMatch)
        (md : MovieData) (fault : ItemFault) (st : CommitState),
      m.tmdb_data = some md → m.removed = false → m.confirmed = true →
      (d.skip_existing &&
        !((processLoop yts d pre st).store.filter (fun r => r.tmdb_id == md.id)).isEmpty) = false →
      errLine m.original_title fault.message ∈
        (processLoop yts d (pre ++ (m, some fault) :: post) st).errors) ∧
    (∀ (yts : String → List Torrent) (d : FormDefaults)
        (items : List (StagedMatch × Option ItemFault)) (initStore : List DVD),
      totalOutcomes (bulk_upload_process_run yts d items initStore) =
        ((items.map Prod.fst).filter commitEligible).length) := by
  refine ⟨totalOutcomes_processLoop, ?_, ?_, ?_⟩
  · intro yts d pre post m fault st
    rw [processLoop_append, processLoop_cons]
  · intro yts d pre post m md fault st hmd hr hc hskip
    rw [processLoop_append, processLoop_cons]
    rw [processItem_eligible yts d (processLoop yts d pre st) m md (some fault) hmd hr hc]
    rcases processLoop_errors_prefix yts d post
      (processItemCore yts d (processLoop yts d pre st) m.original_title md (some fault))
      with ⟨suf, hsuf⟩
    rw [hsuf, processItemCore_fault_errors yts d _ m.original_title md fault hskip]
    simp
  · intro yts d items initStore
    unfold bulk_upload_process_run
    rw [totalOutcomes_processLoop]
    simp [totalOutcomes]

/-- C4 witness: the theorem applied at a one-item batch whose item raises
"boom" — the error line is reported and the report has exactly one
outcome. -/
theorem commit_error_isolation_claim_witness :
    errLine "Dune" "boom" ∈
      (processLoop (fun _ => []) exampleDefaults
        ([] ++ (faultyItem, some (ItemFault.beforeCreate "boom")) :: [])
        { store := [], added := [], skipped := [], errors := [], locIter := [] }).errors ∧
    totalOutcomes (bulk_upload_process_run (fun _ => []) exampleDefaults
      [(faultyItem, some (ItemFault.beforeCreate "boom"))] []) = 1 := by
  constructor
  · exact commit_error_isolation_claim.2.2.1 (fun _ => []) exampleDefaults [] []
      faultyItem faultyPayload (ItemFault.beforeCreate "boom")
      { store := [], added := [], skipped := [], errors := [], locIter := [] }
      rfl rfl rfl (by decide)
  · rw [commit_error_isolation_claim.2.2.2 (fun _ => []) exampleDefaults
      [(faultyItem, some (ItemFault.beforeCreate "boom"))] []]
    decide

/-! ### Field bookkeeping for created records -/

theorem dvd_save_fields (r : DVD) :
    (dvd_save r).name = r.name ∧ (dvd_save r).status = r.status ∧
    (dvd_save r).location = r.location ∧ (dvd_save r).copy_number = r.copy_number ∧
    (dvd_save r).tmdb_id = r.tmdb_id ∧ (dvd_save r).imdb_id = r.imdb_id ∧
    (dvd_save r).release_year = r.release_year := by
  unfold dvd_save
  split <;> exact ⟨rfl, rfl, rfl, rfl, rfl, rfl, rfl⟩

theorem refresh_yts_data_fields (yts : String → List Torrent) (r : DVD) :
    (refresh_yts_data yts r).name = r.name ∧ (refresh_yts_data yts r).status = r.status ∧
    (refresh_yts_data yts r).location = r.location ∧
    (refresh_yts_data yts r).copy_number = r.copy_number ∧
    (refresh_yts_data yts r).tmdb_id = r.tmdb_id ∧
    (refresh_yts_data yts r).imdb_id = r.imdb_id ∧
    (refresh_yts_data yts r).release_year = r.release_year := by
  unfold refresh_yts_data
  split <;> exact ⟨rfl, rfl, rfl, rfl, rfl, rfl, rfl⟩

theorem mkCommitDVD_fields (fd : FormattedData) (d : FormDefaults) (copy : Nat) (loc : String) :
    (mkCommitDVD fd d copy loc).name = fd.name ∧
    (mkCommitDVD fd d copy loc).status = d.default_status ∧
    (mkCommitDVD fd d copy loc).location = loc ∧
    (mkCommitDVD fd d copy loc).copy_number = copy ∧
    (mkCommitDVD fd d copy loc).tmdb_id = fd.tmdb_id ∧
    (mkCommitDVD fd d copy loc).imdb_id = fd.imdb_id ∧
    (mkCommitDVD fd d copy loc).release_year = fd.release_year := by
  exact dvd_save_fields _

theorem refresh_opt_fields (yts : String → List Torrent) (r : DVD) :
    (if !(r.imdb_id = "") then refresh_yts_data yts r else r).name = r.name ∧
    (if !(r.imdb_id = "") then refresh_yts_data yts r else r).status = r.status ∧
    (if !(r.imdb_id = "") then refresh_yts_data yts r else r).location = r.location ∧
    (if !(r.imdb_id = "") then refresh_yts_data yts r else r).copy_number = r.copy_number ∧
    (if !(r.imdb_id = "") then refresh_yts_data yts r else r).tmdb_id = r.tmdb_id := by
  split
  · rcases refresh_yts_data_fields yts r with ⟨g1, g2, g3, g4, g5, _, _⟩
    exact ⟨g1, g2, g3, g4, g5⟩
  · exact ⟨rfl, rfl, rfl, rfl, rfl⟩

theorem commitRecord_fields (yts : String → List Torrent) (d : FormDefaults)
    (st : CommitState) (md : MovieData) :
    (commitRecord yts d st md).name = (format_movie_data md).name ∧
    (commitRecord yts d st md).status = d.default_status ∧
    (commitRecord yts d st md).location = (commitAssignedLoc d st).1 ∧
    (commitRecord yts d st md).copy_number =
      computeCopyNumber st.store md.id (format_movie_data md) ∧
    (commitRecord yts d st md).tmdb_id = md.id := by
  rcases mkCommitDVD_fields (format_movie_data md) d
    (computeCopyNumber st.store md.id (format_movie_data md)) (commitAssignedLoc d st).1
    with ⟨h1, h2, h3, h4, h5, _, _⟩
  rcases refresh_opt_fields yts (mkCommitDVD (format_movie_data md) d
    (computeCopyNumber st.store md.id (format_movie_data md)) (commitAssignedLoc d st).1)
    with ⟨g1, g2, g3, g4, g5⟩
  exact ⟨g1.trans h1, g2.trans h2, g3.trans h3, g4.trans h4, g5.trans h5⟩

theorem processItemCore_create (yts : String → List Torrent) (d : FormDefaults)
    (st : CommitState) (title : String) (md : MovieData)
    (hskip : (d.skip_existing && !(st.store.filter (fun r => r.tmdb_id == md.id)).isEmpty) = false) :
    processItemCore yts d st title md none =
      { st with store := st.store ++ [commitRecord yts d st md],
                added := st.added ++ [(commitRecord yts d st md).name],
                locIter := (commitAssignedLoc d st).2 } := by
  simp [processItemCore, hskip]

theorem computeCopyNumber_truthy_empty (store : List DVD) (tid : Option Int) (fd : FormattedData)
    (ht : truthyInt tid = true) (he : store.filter (fun r => r.tmdb_id == tid) = []) :
    computeCopyNumber store tid fd = 1 := by
  simp [computeCopyNumber, ht, he]

theorem computeCopyNumber_truthy_nonempty (store : List DVD) (tid : Option Int)
    (fd : FormattedData) (l : List DVD) (ht : truthyInt tid = true)
    (he : store.filter (fun r => r.tmdb_id == tid) = l) (hne : l ≠ []) :
    computeCopyNumber store tid fd = (l.map DVD.copy_number).foldl max 0 + 1 := by
  simp only [computeCopyNumber, ht, if_true, he]
  rw [if_neg (by simp [List.isEmpty_iff, hne])]

theorem get_next_location_number_no_unboxed (store : List DVD)
    (h : ∀ r ∈ store, ¬ r.status = "unboxed") :
    get_next_location_number store = 1 := by
  rw [get_next_location_number_eq]
  have : store.filterMap
      (fun r => if locEligible r then some (castLocVal r.location) else none) = [] := by
    rw [List.filterMap_eq_nil_iff]
    intro r hr
    have hel : locEligible r = false := by
      unfold locEligible
      have := h r hr
      simp [this]
    rw [hel]
    simp
  rw [this]
  rfl

theorem two_copy_loop (yts : String → List Torrent) (d : FormDefaults)
    (m1 m2 : StagedMatch) (md1 md2 : MovieData) (L : List String)
    (hskipE : d.skip_existing = false)
    (h1d : m1.tmdb_data = some md1) (h1r : m1.removed = false) (h1c : m1.confirmed = true)
    (h2d : m2.tmdb_data = some md2) (h2r : m2.removed = false) (h2c : m2.confirmed = true)
    (hid1 : md1.id = some 603) (hid2 : md2.id = some 603) :
    ∃ r1 r2 : DVD,
      (processLoop yts d [(m1, none), (m2, none)]
        { store := [], added := [], skipped := [], errors := [], locIter := L }).store
        = [r1, r2] ∧
      (processLoop yts d [(m1, none), (m2, none)]
        { store := [], added := [], skipped := [], errors := [], locIter := L }).added
        = [r1.name, r2.name] ∧
      r1.copy_number = 1 ∧ r2.copy_number = 2 ∧
      r1.tmdb_id = some 603 ∧ r2.tmdb_id = some 603 ∧
      r1.name = (format_movie_data md1).name ∧ r2.name = (format_movie_data md2).name := by
  have hskipAny : ∀ (st : CommitState) (mid : Option Int),
      (d.skip_existing && !(st.store.filter (fun r => r.tmdb_id == mid)).isEmpty) = false := by
    intro st mid
    rw [hskipE]
    rfl
  rw [processLoop_cons, processLoop_cons, processLoop_nil,
      processItem_eligible yts d _ m1 md1 none h1d h1r h1c,
      processItemCore_create yts d _ m1.original_title md1 (hskipAny _ _),
      processItem_eligible yts d _ m2 md2 none h2d h2r h2c,
      processItemCore_create yts d _ m2.original_title md2 (hskipAny _ _)]
  set stInit : CommitState :=
    { store := [], added := [], skipped := [], errors := [], locIter := L } with hstInit
  set R1 := commitRecord yts d stInit md1 with hR1
  set st1 : CommitState :=
    { stInit with store := stInit.store ++ [R1], added := stInit.added ++ [R1.name],
                  locIter := (commitAssignedLoc d stInit).2 } with hst1
  set R2 := commitRecord yts d st1 md2 with hR2
  rcases commitRecord_fields yts d stInit md1 with ⟨c1n, _, _, c1c, c1t⟩
  rcases commitRecord_fields yts d st1 md2 with ⟨c2n, _, _, c2c, c2t⟩
  have hcopy1 : R1.copy_number = 1 := by
    rw [← hR1] at c1c
    rw [c1c, hid1]
    exact computeCopyNumber_truthy_empty _ _ _ (by decide) rfl
  have htid1 : R1.tmdb_id = some 603 := by
    rw [← hR1] at c1t
    rw [c1t, hid1]
  have hst1store : st1.store = [R1] := by simp [hst1, hstInit]
  have hcopy2 : R2.copy_number = 2 := by
    rw [← hR2] at c2c
    rw [c2c, hid2]
    rw [computeCopyNumber_truthy_nonempty st1.store (some 603) (format_movie_data md2) [R1]
      (by decide)
      (by rw [hst1store, List.filter_cons, List.filter_nil]
          simp [htid1])
      (by simp)]
    rw [List.map_cons, List.map_nil, List.foldl_cons, List.foldl_nil, hcopy1]
    decide
  have htid2 : R2.tmdb_id = some 603 := by
    rw [← hR2] at c2t
    rw [c2t, hid2]
  refine ⟨R1, R2, ?_, ?_, hcopy1, hcopy2, htid1, htid2, ?_, ?_⟩
  · simp [hstInit]
  · simp [hstInit]
  · rw [← hR1] at c1n
    exact c1n
  · rw [← hR2] at c2n
    exact c2n

/-- C1: committing a batch of two non-removed confirmed items that both
resolve to external ID 603, with skip-existing off and an initially empty
record store and no per-item exception, persists exactly two records, with
copy numbers 1 and 2 in staged order — the second item's copy number is
recomputed against the store holding the first item's just-persisted
record. -/
theorem commit_duplicate_numbering_claim (yts : String → List Torrent) (d : FormDefaults)
    (m1 m2 : StagedMatch) (md1 md2 : MovieData)
    (hskipE : d.skip_existing = false)
    (h1d : m1.tmdb_data = some md1) (h1r : m1.removed = false) (h1c : m1.confirmed = true)
    (h2d : m2.tmdb_data = some md2) (h2r : m2.removed = false) (h2c : m2.confirmed = true)
    (hid1 : md1.id = some 603) (hid2 : md2.id = some 603) :
    ∃ r1 r2 : DVD,
      (bulk_upload_process_run yts d [(m1, none), (m2, none)] []).store = [r1, r2] ∧
      (bulk_upload_process_run yts d [(m1, none), (m2, none)] []).added = [r1.name, r2.name] ∧
      r1.copy_number = 1 ∧ r2.copy_number = 2 ∧
      r1.tmdb_id = some 603 ∧ r2.tmdb_id = some 603 ∧
      r1.name = (format_movie_data md1).name ∧ r2.name = (format_movie_data md2).name := by
  exact two_copy_loop yts d m1 m2 md1 md2 _ hskipE h1d h1r h1c h2d h2r h2c hid1 hid2

/-- C1 witness: the theorem applied at two concrete staged items both
resolving to external ID 603, over an empty store with skip-existing
off. -/
theorem commit_duplicate_numbering_claim_witness :
    ∃ r1 r2 : DVD,
      (bulk_upload_process_run (fun _ => []) exampleDefaults
        [(copyItem1, none), (copyItem2, none)] []).store = [r1, r2] ∧
      (bulk_upload_process_run (fun _ => []) exampleDefaults
        [(copyItem1, none), (copyItem2, none)] []).added = [r1.name, r2.name] ∧
      r1.copy_number = 1 ∧ r2.copy_number = 2 ∧
      r1.tmdb_id = some 603 ∧ r2.tmdb_id = some 603 ∧
      r1.name = (format_movie_data matrixPayload1).name ∧
      r2.name = (format_movie_data matrixPayload2).name :=
  commit_duplicate_numbering_claim (fun _ => []) exampleDefaults copyItem1 copyItem2
    matrixPayload1 matrixPayload2 rfl rfl rfl rfl rfl rfl rfl rfl rfl

theorem commitAssignedLoc_unboxed (d : FormDefaults) (st : CommitState) (x : String)
    (xs : List String) (hunb : d.default_status = "unboxed") (hl : st.locIter = x :: xs) :
    commitAssignedLoc d st = (x, xs) := by
  simp [commitAssignedLoc, hunb, hl]

theorem three_unboxed_loop (yts : String → List Torrent) (d : FormDefaults)
    (m1 m2 m3 : StagedMatch) (md1 md2 md3 : MovieData) (S0 : List DVD)
    (x1 x2 x3 : String) (rest : List String)
    (hunb : d.default_status = "unboxed") (hskipE : d.skip_existing = false)
    (h1d : m1.tmdb_data = some md1) (h1r : m1.removed = false) (h1c : m1.confirmed = true)
    (h2d : m2.tmdb_data = some md2) (h2r : m2.removed = false) (h2c : m2.confirmed = true)
    (h3d : m3.tmdb_data = some md3) (h3r : m3.removed = false) (h3c : m3.confirmed = true) :
    ∃ r1 r2 r3 : DVD,
      (processLoop yts d [(m1, none), (m2, none), (m3, none)]
        { store := S0, added := [], skipped := [], errors := [],
          locIter := x1 :: x2 :: x3 :: rest }).store = S0 ++ [r1, r2, r3] ∧
      r1.location = x1 ∧ r2.location = x2 ∧ r3.location = x3 ∧
      r1.status = "unboxed" ∧ r2.status = "unboxed" ∧ r3.status = "unboxed" := by
  have hskipAny : ∀ (st : CommitState) (mid : Option Int),
      (d.skip_existing && !(st.store.filter (fun r => r.tmdb_id == mid)).isEmpty) = false := by
    intro st mid
    rw [hskipE]
    rfl
  rw [processLoop_cons, processLoop_cons, processLoop_cons, processLoop_nil,
      processItem_eligible yts d _ m1 md1 none h1d h1r h1c,
      processItemCore_create yts d _ m1.original_title md1 (hskipAny _ _),
      processItem_eligible yts d _ m2 md2 none h2d h2r h2c,
      processItemCore_create yts d _ m2.original_title md2 (hskipAny _ _),
      processItem_eligible yts d _ m3 md3 none h3d h3r h3c,
      processItemCore_create yts d _ m3.original_title md3 (hskipAny _ _)]
  set stInit : CommitState :=
    { store := S0, added := [], skipped := [], errors := [],
      locIter := x1 :: x2 :: x3 :: rest } with hstInit
  set R1 := commitRecord yts d stInit md1 with hR1
  set st1 : CommitState :=
    { stInit with store := stInit.store ++ [R1], added := stInit.added ++ [R1.name],
                  locIter := (commitAssignedLoc d stInit).2 } with hst1
  set R2 := commitRecord yts d st1 md2 with hR2
  set st2 : CommitState :=
    { st1 with store := st1.store ++ [R2], added := st1.added ++ [R2.name],
               locIter := (commitAssignedLoc d st1).2 } with hst2
  set R3 := commitRecord yts d st2 md3 with hR3
  have hal0 : commitAssignedLoc d stInit = (x1, x2 :: x3 :: rest) :=
    commitAssignedLoc_unboxed d stInit x1 (x2 :: x3 :: rest) hunb (by rw [hstInit])
  have hal1 : commitAssignedLoc d st1 = (x2, x3 :: rest) :=
    commitAssignedLoc_unboxed d st1 x2 (x3 :: rest) hunb (by rw [hst1, hal0])
  have hal2 : commitAssignedLoc d st2 = (x3, rest) :=
    commitAssignedLoc_unboxed d st2 x3 rest hunb (by rw [hst2, hal1])
  rcases commitRecord_fields yts d stInit md1 with ⟨_, s1, l1, _, _⟩
  rcases commitRecord_fields yts d st1 md2 with ⟨_, s2, l2, _, _⟩
  rcases commitRecord_fields yts d st2 md3 with ⟨_, s3, l3, _, _⟩
  rw [← hR1] at s1 l1
  rw [← hR2] at s2 l2
  rw [← hR3] at s3 l3
  refine ⟨R1, R2, R3, ?_, ?_, ?_, ?_, s1.trans hunb, s2.trans hunb, s3.trans hunb⟩
  · simp [hst2, hst1, hstInit]
  · rw [l1, hal0]
  · rw [l2, hal1]
  · rw [l3, hal2]

/-- C6: `get_next_sequential_locations count` is the ordered list of the
decimal strings of `n`, `n+1`, ..., `n+count-1` for a single reading `n`
of `get_next_location_number` — it has length `count`, its `i`-th element
is `str(n + i)`, and its elements are mutually distinct; committing three
confirmed items with default disposition unboxed against a store holding
no unboxed record assigns slot identifiers exactly "1", "2", "3", each
unique. -/
theorem sequential_locations_claim :
    (∀ (count : Nat) (store : List DVD),
      (get_next_sequential_locations count store).length = count) ∧
    (∀ (count : Nat) (store : List DVD) (i : Nat), i < count →
      (get_next_sequential_locations count store)[i]? =
        some (pyStr (get_next_location_number store + i))) ∧
    (∀ (count : Nat) (store : List DVD), (get_next_sequential_locations count store).Nodup) ∧
    (∀ (yts : String → List Torrent) (d : FormDefaults) (m1 m2 m3 : StagedMatch)
        (md1 md2 md3 : MovieData) (initStore : List DVD),
      d.default_status = "unboxed" → d.skip_existing = false →
      m1.tmdb_data = some md1 → m1.removed = false → m1.confirmed = true →
      m2.tmdb_data = some md2 → m2.removed = false → m2.confirmed = true →
      m3.tmdb_data = some md3 → m3.removed = false → m3.confirmed = true →
      (∀ r ∈ initStore, ¬ r.status = "unboxed") →
      ∃ r1 r2 r3 : DVD,
        (bulk_upload_process_run yts d [(m1, none), (m2, none), (m3, none)] initStore).store
          = initStore ++ [r1, r2, r3] ∧
        r1.location = "1" ∧ r2.location = "2" ∧ r3.location = "3" ∧
        ¬ r1.location = r2.location ∧ ¬ r1.location = r3.location ∧
        ¬ r2.location = r3.location) := by
  refine ⟨?_, ?_, ?_, ?_⟩
  · intro count store
    unfold get_next_sequential_locations
    simp
  · intro count store i hi
    unfold get_next_sequential_locations
    rw [List.getElem?_map, List.getElem?_range hi]
    rfl
  · intro count store
    unfold get_next_sequential_locations
    refine List.Nodup.map ?_ (List.nodup_range count)
    intro a b h
    have := pyStr_injective h
    omega
  · intro yts d m1 m2 m3 md1 md2 md3 initStore hunb hskipE
      h1d h1r h1c h2d h2r h2c h3d h3r h3c hstore
    have hfilter : (([(m1, none), (m2, none), (m3, none)].map
        (Prod.fst (β := Option ItemFault))).filter
        (fun m => commitEligible m && (d.default_status = "unboxed"))) = [m1, m2, m3] := by
      simp [commitEligible, h1d, h1r, h1c, h2d, h2r, h2c, h3d, h3r, h3c, hunb]
    have hlocs : get_next_sequential_locations 3 initStore = ["1", "2", "3"] := by
      unfold get_next_sequential_locations
      rw [get_next_location_number_no_unboxed initStore hstore]
      decide
    have hrun : bulk_upload_process_run yts d [(m1, none), (m2, none), (m3, none)] initStore =
        processLoop yts d [(m1, none), (m2, none), (m3, none)]
          { store := initStore, added := [], skipped := [], errors := [],
            locIter := ["1", "2", "3"] } := by
      unfold bulk_upload_process_run
      rw [hfilter]
      simp [hunb, hlocs]
    rw [hrun]
    obtain ⟨r1, r2, r3, hs, hl1, hl2, hl3, _, _, _⟩ :=
      three_unboxed_loop yts d m1 m2 m3 md1 md2 md3 initStore "1" "2" "3" []
        hunb hskipE h1d h1r h1c h2d h2r h2c h3d h3r h3c
    refine ⟨r1, r2, r3, hs, hl1, hl2, hl3, ?_, ?_, ?_⟩
    · rw [hl1, hl2]; decide
    · rw [hl1, hl3]; decide
    · rw [hl2, hl3]; decide

/-- C6 witness: the theorem applied at `count = 3` over the empty store,
and the commit scenario at three concrete confirmed items. -/
theorem sequential_locations_claim_witness :
    (get_next_sequential_locations 3 [])[1]? =
      some (pyStr (get_next_location_number [] + 1)) ∧
    ∃ r1 r2 r3 : DVD,
      (bulk_upload_process_run (fun _ => []) unboxedDefaults
        [(copyItem1, none), (copyItem1, none), (copyItem1, none)] []).store
        = [] ++ [r1, r2, r3] ∧
      r1.location = "1" ∧ r2.location = "2" ∧ r3.location = "3" ∧
      ¬ r1.location = r2.location ∧ ¬ r1.location = r3.location ∧
      ¬ r2.location = r3.location := by
  constructor
  · exact sequential_locations_claim.2.1 3 [] 1 (by decide)
  · exact sequential_locations_claim.2.2.2 (fun _ => []) unboxedDefaults
      copyItem1 copyItem1 copyItem1 matrixPayload1 matrixPayload1 matrixPayload1 []
      rfl rfl rfl rfl rfl rfl rfl rfl rfl rfl rfl (by simp)

/-! ### Error-marked items never reach the store -/

theorem mem_modify {α : Type} (f : α → α) :
    ∀ (i : Nat) (l : List α) (x : α), x ∈ l.modify f i → x ∈ l ∨ ∃ y ∈ l, x = f y := by
  intro i l
  induction l generalizing i with
  | nil =>
    intro x hx
    rw [List.modify_nil] at hx
    cases hx
  | cons a as ih =>
    intro x hx
    cases i with
    | zero =>
      rw [List.modify_zero_cons] at hx
      rcases List.mem_cons.mp hx with h | h
      · exact Or.inr ⟨a, by simp, h⟩
      · exact Or.inl (List.mem_cons_of_mem a h)
    | succ n =>
      rw [List.modify_succ_cons] at hx
      rcases List.mem_cons.mp hx with h | h
      · exact Or.inl (by simp [h])
      · rcases ih n x h with h2 | ⟨y, hy, hxy⟩
        · exact Or.inl (List.mem_cons_of_mem a h2)
        · exact Or.inr ⟨y, List.mem_cons_of_mem a hy, hxy⟩

theorem reachable_error_invariant {b : List StagedMatch} (hb : ReachableBatch b) :
    ∀ m ∈ b, m.error.isSome = true → m.tmdb_data = none ∧ m.confirmed = false := by
  induction hb with
  | intake search details image_base titles =>
    intro m hm herr
    rcases List.mem_map.mp hm with ⟨t, _, rfl⟩
    rcases hf : t.2 with _ | msg
    · rcases hs : search t.1 with _ | ⟨movie, rest⟩
      · simp [intake_one, hf, hs]
      · rcases hdt : details movie.id with _ | md
        · simp [intake_one, hf, hs, hdt]
        · simp [intake_one, hf, hs, hdt] at herr
    · simp [intake_one, hf]
  | update b details image_base index tid hb ih =>
    intro m hm herr
    unfold update_match at hm
    split at hm
    · rcases hdt : details tid with _ | md
      · rw [hdt] at hm
        exact ih m hm herr
      · rw [hdt] at hm
        rcases mem_modify _ index b m hm with h | ⟨y, _, rfl⟩
        · exact ih m h herr
        · simp at herr
    · exact ih m hm herr
  | remove b index hb ih =>
    intro m hm herr
    unfold remove_match at hm
    split at hm
    · rcases mem_modify _ index b m hm with h | ⟨y, hy, rfl⟩
      · exact ih m h herr
      · exact ih y hy herr
    · exact ih m hm herr
  | restore b index hb ih =>
    intro m hm herr
    unfold restore_match at hm
    split at hm
    · rcases mem_modify _ index b m hm with h | ⟨y, hy, rfl⟩
      · exact ih m h herr
      · exact ih y hy herr
    · exact ih m hm herr

theorem commitEligible_of_data_none {m : StagedMatch} (h : m.tmdb_data = none) :
    commitEligible m = false := by
  unfold commitEligible
  rw [h]
  simp

theorem processLoop_filter_errors (yts : String → List Torrent) (d : FormDefaults)
    (ps : List (StagedMatch × Option ItemFault))
    (hinv : ∀ p ∈ ps, p.1.error.isSome = true → p.1.tmdb_data = none) :
    ∀ st : CommitState,
      processLoop yts d ps st =
        processLoop yts d (ps.filter (fun p => p.1.error.isNone)) st := by
  induction ps with
  | nil => intro st; rfl
  | cons p l ih =>
    intro st
    by_cases he : p.1.error.isSome = true
    · have hd := hinv p (by simp) he
      rw [processLoop_cons, processItem_data_none yts d st p.1 p.2 hd, List.filter_cons,
        if_neg (by revert he; cases p.1.error <;> simp)]
      exact ih (fun q hq hqe => hinv q (by simp [hq]) hqe) st
    · rw [processLoop_cons, List.filter_cons,
        if_pos (by revert he; cases p.1.error <;> simp), processLoop_cons]
      exact ih (fun q hq hqe => hinv q (by simp [hq]) hqe) _

theorem map_filter_eligible_filter_errors (d : FormDefaults)
    (ps : List (StagedMatch × Option ItemFault))
    (hinv : ∀ p ∈ ps, p.1.error.isSome = true → p.1.tmdb_data = none) :
    (((ps.filter (fun p => p.1.error.isNone)).map Prod.fst).filter
        (fun m => commitEligible m && (d.default_status = "unboxed"))) =
      ((ps.map Prod.fst).filter
        (fun m => commitEligible m && (d.default_status = "unboxed"))) := by
  induction ps with
  | nil => rfl
  | cons p l ih =>
    have ihl := ih (fun q hq hqe => hinv q (by simp [hq]) hqe)
    by_cases he : p.1.error.isSome = true
    · have hd := hinv p (by simp) he
      rw [List.filter_cons, if_neg (by revert he; cases p.1.error <;> simp)]
      rw [List.map_cons, List.filter_cons,
        if_neg (by rw [commitEligible_of_data_none hd]; simp)]
      exact ihl
    · rw [List.filter_cons, if_pos (by revert he; cases p.1.error <;> simp)]
      rw [List.map_cons, List.map_cons, List.filter_cons, List.filter_cons]
      by_cases hg : (commitEligible p.1 && (d.default_status = "unboxed")) = true
      · rw [if_pos hg, if_pos hg, ihl]
      · rw [if_neg hg, if_neg hg]
        exact ihl

theorem run_filter_errors (yts : String → List Torrent) (d : FormDefaults)
    (ps : List (StagedMatch × Option ItemFault)) (initStore : List DVD)
    (hinv : ∀ p ∈ ps, p.1.error.isSome = true → p.1.tmdb_data = none) :
    bulk_upload_process_run yts d ps initStore =
      bulk_upload_process_run yts d (ps.filter (fun p => p.1.error.isNone)) initStore := by
  unfold bulk_upload_process_run
  rw [map_filter_eligible_filter_errors d ps hinv]
  exact processLoop_filter_errors yts d ps hinv _

/-- C9 (implicit): intake stages every unresolved title unconfirmed with a
null payload and an error mark; the reachable staged batches keep every
error-marked item unresolved and unconfirmed; the Commit loop produces no
record (and no outcome) from an item that is removed, unconfirmed or
unresolved; hence committing any reachable batch gives exactly the same
result as committing it with its error-marked items dropped — no record is
ever created from an error-marked staged item. -/
theorem error_staging_claim :
    (∀ (search : String → List SearchResult) (details : Option Int → Option MovieData)
        (image_base : String) (titles : List (String × Option String)),
      ∀ m ∈ bulk_upload_intake search details image_base titles,
        m.tmdb_data = none → m.confirmed = false ∧ m.error.isSome = true) ∧
    (∀ b : List StagedMatch, ReachableBatch b →
      ∀ m ∈ b, m.error.isSome = true → m.tmdb_data = none ∧ m.confirmed = false) ∧
    (∀ (yts : String → List Torrent) (d : FormDefaults) (st : CommitState)
        (m : StagedMatch) (f : Option ItemFault),
      commitEligible m = false → processItem yts d st m f = st) ∧
    (∀ b : List StagedMatch, ReachableBatch b →
      ∀ (yts : String → List Torrent) (d : FormDefaults)
        (ps : List (StagedMatch × Option ItemFault)) (initStore : List DVD),
      ps.map Prod.fst = b →
      bulk_upload_process_run yts d ps initStore =
        bulk_upload_process_run yts d (ps.filter (fun p => p.1.error.isNone)) initStore) := by
  refine ⟨?_, fun b hb => reachable_error_invariant hb, ?_, ?_⟩
  · intro search details image_base titles m hm hdata
    rcases List.mem_map.mp hm with ⟨t, _, rfl⟩
    rcases hf : t.2 with _ | msg
    · rcases hs : search t.1 with _ | ⟨movie, rest⟩
      · simp [intake_one, hf, hs]
      · rcases hdt : details movie.id with _ | md
        · simp [intake_one, hf, hs, hdt]
        · simp [intake_one, hf, hs, hdt] at hdata
    · simp [intake_one, hf]
  · intro yts d st m f h
    exact processItem_not_eligible yts d st m f h
  · intro b hb yts d ps initStore hmap
    refine run_filter_errors yts d ps initStore ?_
    intro p hp hpe
    exact (reachable_error_invariant hb p.1 (hmap ▸ List.mem_map_of_mem Prod.fst hp) hpe).1

/-- C9 witness: the theorem applied at a batch staged by an intake whose
search found nothing — committing it equals committing the empty filtered
batch. -/
theorem error_staging_claim_witness :
    bulk_upload_process_run (fun _ => []) exampleDefaults
      [(intake_one (fun _ => []) (fun _ => none) "" "Ghost" none, none)] [] =
      bulk_upload_process_run (fun _ => []) exampleDefaults
        ([(intake_one (fun _ => []) (fun _ => none) "" "Ghost" none, none)].filter
          (fun p => p.1.error.isNone)) [] := by
  exact error_staging_claim.2.2.2
    [intake_one (fun _ => []) (fun _ => none) "" "Ghost" none]
    (ReachableBatch.intake (fun _ => []) (fun _ => none) "" [("Ghost", none)])
    (fun _ => []) exampleDefaults
    [(intake_one (fun _ => []) (fun _ => none) "" "Ghost" none, none)] [] rfl

end DVDTracker
